import Mathlib

/-!
Shallow embedding of `src/app.py` (the "Why Was I Rejected?" resume analyzer,
a Flask backend).  The functional core consists of:

* `read_resume_or_desc` — the input resolver (file upload → form text → JSON),
* `build_prompt` — the prompt builder,
* `analyze` — the `POST /analyze` handler, which validates the two resolved
  texts, issues at most one chat-completion call, and renders the result as a
  JSON body or an HTML page.

Machine-level details that the program delegates to libraries are modelled
abstractly: an uploaded file carries the outcome of the format-specific text
decoder on its bytes (`Option String`; `none` means the decoder raises, which
the source catches and converts to the empty string), and the completion
provider is an oracle (`CompletionOutcome`) giving what the single blocking
call would return.  The handler is embedded as a pure function from the
request and the oracle to the HTTP response together with the list of
completion requests actually sent, so that "no external call is made" and
"exactly one request" are provable statements.

Python string operations (`str.strip`, `str.lower`, `os.path.splitext`,
`str.endswith`) are embedded faithfully; `lower`/`strip` are modelled on the
ASCII range, which is exact for every string the program compares against.
-/

set_option autoImplicit false

namespace WWIR

/-! ## Python string primitives -/

/-- The whitespace characters stripped by Python `str.strip()` (ASCII range). -/
def isPySpace (c : Char) : Bool :=
  c == ' ' || c == '\t' || c == '\n' || c == '\r' || c == '\x0b' || c == '\x0c'

/-- Python `s.strip()`: remove leading and trailing whitespace. -/
def pyStrip (s : String) : String :=
  ⟨((s.data.dropWhile isPySpace).reverse.dropWhile isPySpace).reverse⟩

/-- Lowercase one character (ASCII range), as Python `str.lower` does on
ASCII input. -/
def pyCharLower (c : Char) : Char :=
  if 65 ≤ c.toNat ∧ c.toNat ≤ 90 then Char.ofNat (c.toNat + 32) else c

/-- Python `s.lower()` (ASCII range). -/
def pyLower (s : String) : String :=
  ⟨s.data.map pyCharLower⟩

/-- Python `s.startswith(pre)`. -/
def pyStartsWith (s pre : String) : Bool :=
  pre.data.isPrefixOf s.data

/-- Python `s.endswith(suf)`. -/
def pyEndsWith (s suf : String) : Bool :=
  suf.data.isSuffixOf s.data

/-- Replace every (non-overlapping, leftmost-first) occurrence of `pat` in
the list, fuelled by the list length; exact for non-empty `pat`, the only
way the program uses it. -/
def replaceFuel (pat rep : List Char) : Nat → List Char → List Char
  | 0, s => s
  | _, [] => []
  | fuel + 1, c :: rest =>
    if pat ≠ [] ∧ pat.isPrefixOf (c :: rest) then
      rep ++ replaceFuel pat rep fuel ((c :: rest).drop pat.length)
    else
      c :: replaceFuel pat rep fuel rest

/-- Python `s.replace(pat, rep)` for non-empty `pat` (the source only ever
replaces the literal `"_file"`). -/
def pyReplace (s pat rep : String) : String :=
  ⟨replaceFuel pat.data rep.data s.data.length s.data⟩

/-- Index of the last occurrence of `c` in `l`, if any (Python `str.rfind`). -/
def lastIdxOf (c : Char) : List Char → Option Nat
  | [] => none
  | x :: xs =>
    match lastIdxOf c xs with
    | some j => some (j + 1)
    | none => if x == c then some 0 else none

/-- The extension component of Python `os.path.splitext(p)[1]` (posix `sep`):
the suffix starting at the last dot, provided that dot lies after the last
path separator and at least one non-dot character of the basename precedes it
(leading dots mark hidden files, so `".pdf"` has no extension). -/
def splitextExt (p : String) : String :=
  match lastIdxOf '.' p.data with
  | none => ""
  | some dotIdx =>
    let nameStart : Nat :=
      match lastIdxOf '/' p.data with
      | none => 0
      | some i => i + 1
    if nameStart ≤ dotIdx then
      if ((p.data.drop nameStart).take (dotIdx - nameStart)).any (fun ch => ch != '.') then
        ⟨p.data.drop dotIdx⟩
      else ""
    else ""

/-! ## Source: utility functions -/

/-- `allowed_extension` from the source:
`filename.lower().endswith((".pdf", ".docx"))`. -/
def allowed_extension (filename : String) : Bool :=
  pyEndsWith (pyLower filename) ".pdf" || pyEndsWith (pyLower filename) ".docx"

/-! ## Request model -/

/-- A JSON value, as far as the source inspects one (`isinstance(val, str)`). -/
inductive Json where
  | str (s : String)
  | num (n : Int)
  | bool (b : Bool)
  | null
  deriving DecidableEq

/-- An uploaded file part.  `extract` is the result of running the
format-specific decoder (`extract_text_from_pdf` / `extract_text_from_docx`)
on the file bytes: `some t` when the decoder returns text `t`, `none` when it
raises (unreadable or corrupt document, or a missing parsing library). -/
structure UploadedFile where
  filename : String
  extract : Option String
  deriving DecidableEq

/-- The request state the handler reads: `request.files`, `request.form`,
`request.json` (already parsed; `none` for a non-JSON body, matching the
`request.json or {}` idiom in the source), and `request.content_type`
(the empty string standing for `None`). -/
structure Request where
  files : List (String × UploadedFile)
  form : List (String × String)
  json : Option (List (String × Json))
  contentType : String
  deriving DecidableEq

/-! ## Source: input resolver -/

/-- `read_resume_or_desc` from the source.  Priority: file upload →
textarea (form) → JSON payload.  A file part is considered only when it is
truthy (Werkzeug `FileStorage` truthiness is non-empty `filename`) and its
filename passes `allowed_extension`; the decoder dispatched on the
`os.path.splitext` extension runs under `try/except`, with any failure
converted to the empty string (no fallback to inline text).  When the
splitext extension is neither `.pdf` nor `.docx` the `if/elif` falls
through and the resolver proceeds to the inline sources. -/
def read_resume_or_desc (req : Request) (field_name : String) : String :=
  let fileResult : Option String :=
    match req.files.lookup field_name with
    | some f =>
      if f.filename ≠ "" ∧ allowed_extension f.filename = true then
        let ext := pyLower (splitextExt f.filename)
        if ext = ".pdf" then some (f.extract.getD "")
        else if ext = ".docx" then some (f.extract.getD "")
        else none
      else none
    | none => none
  match fileResult with
  | some t => t
  | none =>
    let base := pyReplace field_name "_file" ""
    if req.form ≠ [] then
      pyStrip ((req.form.lookup base).getD "")
    else
      match (req.json.getD []).lookup base with
      | some (Json.str s) => pyStrip s
      | _ => ""

/-! ## Source: prompt builder -/

/-- The fixed system prompt from `build_prompt`. -/
def system_prompt : String :=
  "You are an expert technical career coach. " ++
  "Compare the candidate\x27s resume to the position description. " ++
  "Identify skill gaps, missing keywords, and concrete improvements. " ++
  "Output structured advice in four sections:\n" ++
  "1. Overall Fit Summary (2‑3 sentences)\n" ++
  "2. Missing or Weak Keywords/Skills (bullet list)\n" ++
  "3. Resume Improvement Suggestions (bullet list)\n" ++
  "4. General Job‑Search Advice (≤150 words)"

/-- `build_prompt` from the source: returns the pair
`(system_prompt, user_content)` where the user content is the f-string
`f"[RESUME]\n{resume}\n\n[JOB_DESCRIPTION]\n{job_description}"`. -/
def build_prompt (resume : String) (job_description : String) : String × String :=
  (system_prompt, "[RESUME]\n" ++ resume ++ "\n\n[JOB_DESCRIPTION]\n" ++ job_description)

/-! ## Source: the /analyze handler -/

/-- The fixed missing-input error message. -/
def missingInputMsg : String :=
  "Both resume and job description are required — either upload a PDF/DOCX or paste the text."

/-- One request to the chat-completion provider, as assembled in `analyze`
(`openai.ChatCompletion.create(...)`): model identifier, the ordered
`(role, content)` message list, temperature and `max_tokens`. -/
structure CompletionRequest where
  model : String
  messages : List (String × String)
  temperature : ℚ
  maxTokens : Nat
  deriving DecidableEq

/-- What the single blocking provider call would return: a successful
response carrying the message contents of its choices, or an
`openai.error.OpenAIError` with message `msg`. -/
inductive CompletionOutcome where
  | success (choices : List String)
  | openaiError (msg : String)
  deriving DecidableEq

/-- The HTTP response of the handler: a `jsonify` body (status code and the
key/value pairs of the dict), a rendered HTML page carrying the template's
`result` parameter, or an uncaught exception (`response.choices[0]` on an
empty choice list), which Flask turns into a generic 500. -/
inductive Response where
  | json (status : Nat) (body : List (String × String))
  | html (status : Nat) (result : String)
  | crash
  deriving DecidableEq

/-- The status code of a response (Flask maps an uncaught exception to 500). -/
def Response.status : Response → Nat
  | .json s _ => s
  | .html s _ => s
  | .crash => 500

/-- Look up a field of a JSON response body. -/
def Response.jsonField (r : Response) (key : String) : Option String :=
  match r with
  | .json _ body => body.lookup key
  | _ => none

/-- The analysis text a response delivers to the caller: the `analysis`
field of a JSON body, or the `result` parameter of the rendered page. -/
def Response.analysisText : Response → Option String
  | .json _ body => body.lookup "analysis"
  | .html _ r => some r
  | .crash => none

/-- The `POST /analyze` handler from the source, as a function of the request
and the provider oracle.  Returns the response together with the list of
completion requests sent to the provider (empty on the 400 path, a single
request otherwise). -/
def analyze (req : Request) (provider : CompletionOutcome) :
    Response × List CompletionRequest :=
  let resume_text := read_resume_or_desc req "resume_file"
  let job_desc_text := read_resume_or_desc req "job_desc_file"
  if resume_text = "" ∨ job_desc_text = "" then
    (Response.json 400 [("error", missingInputMsg)], [])
  else
    let prompts := build_prompt resume_text job_desc_text
    let creq : CompletionRequest :=
      { model := "gpt-4o-mini"
        messages := [("system", prompts.1), ("user", prompts.2)]
        temperature := 3 / 10
        maxTokens := 800 }
    match provider with
    | .openaiError msg => (Response.json 500 [("error", msg)], [creq])
    | .success [] => (Response.crash, [creq])
    | .success (c :: _) =>
      let analysis := pyStrip c
      if pyStartsWith req.contentType "application/json" then
        (Response.json 200 [("analysis", analysis)], [creq])
      else
        (Response.html 200 analysis, [creq])

/-! ## Concrete requests used by counterexamples -/

/-- A multipart request whose resume file extracts to the whitespace-only
text `"\n"` (e.g. a PDF whose pages yield no text, joined with `"\n"`),
with inline job-description text. -/
def c1Req : Request :=
  { files := [("resume_file", { filename := "r.pdf", extract := some "\n" })],
    form := [("job_desc", "target job text")],
    json := none,
    contentType := "multipart/form-data" }

/-- A request attaching a file named exactly `".pdf"` (which passes the
`endswith`-based allow-list but has no `os.path.splitext` extension) whose
decoder would yield `"FILETEXT"`, alongside inline resume text. -/
def c4Req : Request :=
  { files := [("resume_file", { filename := ".pdf", extract := some "FILETEXT" })],
    form := [("resume", "inline resume"), ("job_desc", "job")],
    json := none,
    contentType := "multipart/form-data" }

/-- A JSON request with both fields non-empty, for exercising the success
path. -/
def c7Req : Request :=
  { files := [], form := [],
    json := some [("resume", Json.str "r"), ("job_desc", Json.str "j")],
    contentType := "application/json" }

/-- The JSON request of the documented contract: both documented fields
`resume` and `job_description` present and non-empty. -/
def c8Req : Request :=
  { files := [], form := [],
    json := some [("resume", Json.str "my resume"), ("job_description", Json.str "the job")],
    contentType := "application/json" }

/-- The same request with the undocumented key `job_desc` instead. -/
def c8ReqAlt : Request :=
  { files := [], form := [],
    json := some [("resume", Json.str "my resume"), ("job_desc", Json.str "the job")],
    contentType := "application/json" }

/-! ## Theorems -/

/-- C2 (confirmed): for all non-empty `resumeText` and `jobDescriptionText`,
the built user prompt is exactly the literal concatenation
`"[RESUME]\n" ++ resumeText ++ "\n\n[JOB_DESCRIPTION]\n" ++ jobDescriptionText`
with no other transformation, and the system prompt is the fixed constant
`system_prompt`, independent of the inputs.  (`build_prompt` is a pure Lean
function, faithfully mirroring the side-effect-free source function.) -/
theorem buildPrompt_literal_concat (r j : String) (hr : r ≠ "") (hj : j ≠ "") :
    (build_prompt r j).2 = "[RESUME]\n" ++ r ++ "\n\n[JOB_DESCRIPTION]\n" ++ j ∧
    (build_prompt r j).1 = system_prompt := by
  exact ⟨rfl, rfl⟩

/-- Witness for C2: the theorem applied at concrete non-empty inputs. -/
theorem buildPrompt_literal_concat_witness :
    (build_prompt "my resume" "the job").2 =
      "[RESUME]\n" ++ "my resume" ++ "\n\n[JOB_DESCRIPTION]\n" ++ "the job" ∧
    (build_prompt "my resume" "the job").1 = system_prompt :=
  buildPrompt_literal_concat "my resume" "the job" (by decide) (by decide)

/-- Counterexample for C1: the resolved resume text `"\n"` is empty after
trimming, yet the endpoint neither returns 400 nor refrains from calling the
provider: the handler only tests the resolved strings for emptiness, and the
resolver does not trim file-extracted text. -/
theorem analyze_whitespaceExtract_notRejected :
    pyStrip (read_resume_or_desc c1Req "resume_file") = "" ∧
    (analyze c1Req (CompletionOutcome.success ["ok"])).2 ≠ [] ∧
    ((analyze c1Req (CompletionOutcome.success ["ok"])).1).status = 200 := by
  refine ⟨by decide, by decide, by decide⟩

/-- C1 (amended): if either resolved text is the empty string, the endpoint
returns HTTP 400 with the fixed missing-input message and no completion
request is sent.  (Inline form/JSON inputs are trimmed by the resolver, so
for them emptiness coincides with emptiness after trimming; file-extracted
text is passed through untrimmed.) -/
theorem analyze_emptyResolved_returns400_noCall (req : Request)
    (provider : CompletionOutcome)
    (h : read_resume_or_desc req "resume_file" = "" ∨
         read_resume_or_desc req "job_desc_file" = "") :
    analyze req provider = (Response.json 400 [("error", missingInputMsg)], []) := by
  simp only [analyze]
  rw [if_pos h]

/-- Witness for C1 (amended): a JSON request with an empty resume field. -/
theorem analyze_emptyResolved_returns400_noCall_witness :
    analyze { files := [], form := [],
              json := some [("resume", Json.str ""), ("job_desc", Json.str "j")],
              contentType := "application/json" }
        (CompletionOutcome.success ["ok"]) =
      (Response.json 400 [("error", missingInputMsg)], []) :=
  analyze_emptyResolved_returns400_noCall _ _ (Or.inl (by decide))

/-- C3 (confirmed): when the completion call raises an `OpenAIError` with
message `msg`, the endpoint answers HTTP 500 with a JSON body whose `error`
field is `msg` verbatim and which has no `analysis` field, and exactly one
provider request was sent (no retry). -/
theorem analyze_providerError_500_verbatim_noRetry (req : Request) (msg : String)
    (h1 : read_resume_or_desc req "resume_file" ≠ "")
    (h2 : read_resume_or_desc req "job_desc_file" ≠ "") :
    ((analyze req (CompletionOutcome.openaiError msg)).1).status = 500 ∧
    ((analyze req (CompletionOutcome.openaiError msg)).1).jsonField "error" = some msg ∧
    ((analyze req (CompletionOutcome.openaiError msg)).1).jsonField "analysis" = none ∧
    ((analyze req (CompletionOutcome.openaiError msg)).2).length = 1 := by
  simp only [analyze]
  rw [if_neg (not_or.mpr ⟨h1, h2⟩)]
  exact ⟨rfl, rfl, rfl, rfl⟩

/-- Witness for C3: a concrete JSON request and a provider failure. -/
theorem analyze_providerError_500_verbatim_noRetry_witness :
    ((analyze { files := [], form := [],
                json := some [("resume", Json.str "r"), ("job_desc", Json.str "j")],
                contentType := "application/json" }
        (CompletionOutcome.openaiError "rate limited")).1).status = 500 ∧
    ((analyze { files := [], form := [],
                json := some [("resume", Json.str "r"), ("job_desc", Json.str "j")],
                contentType := "application/json" }
        (CompletionOutcome.openaiError "rate limited")).1).jsonField "error" =
      some "rate limited" ∧
    ((analyze { files := [], form := [],
                json := some [("resume", Json.str "r"), ("job_desc", Json.str "j")],
                contentType := "application/json" }
        (CompletionOutcome.openaiError "rate limited")).1).jsonField "analysis" = none ∧
    ((analyze { files := [], form := [],
                json := some [("resume", Json.str "r"), ("job_desc", Json.str "j")],
                contentType := "application/json" }
        (CompletionOutcome.openaiError "rate limited")).2).length = 1 :=
  analyze_providerError_500_verbatim_noRetry _ "rate limited" (by decide) (by decide)

/-- Counterexample for C4: the attached file `".pdf"` has an allowed
extension by the source's own `allowed_extension` check, its extraction
would succeed, inline text is supplied for the same field — and the
resolver returns the inline text, not the file text: `os.path.splitext`
gives `".pdf"` no extension, so the `if/elif` dispatch falls through to the
inline sources. -/
theorem resolver_bareDotPdf_returnsInline :
    allowed_extension ".pdf" = true ∧
    read_resume_or_desc c4Req "resume_file" = "inline resume" ∧
    read_resume_or_desc c4Req "resume_file" ≠ "FILETEXT" := by
  refine ⟨by decide, by decide, by decide⟩

/-- C4 (amended): whenever the attached file's filename has a genuine
`os.path.splitext` extension `.pdf` or `.docx` (which for filenames passing
the allow-list excludes only bare names such as `".pdf"`) and the decoder
succeeds with text `t`, the resolver returns `t` — regardless of any inline
form or JSON text supplied for the same logical field. -/
theorem resolver_fileExtract_overrides_inline (req : Request) (fieldName : String)
    (f : UploadedFile) (t : String)
    (hf : req.files.lookup fieldName = some f)
    (hname : f.filename ≠ "")
    (hallow : allowed_extension f.filename = true)
    (hext : pyLower (splitextExt f.filename) = ".pdf" ∨
            pyLower (splitextExt f.filename) = ".docx")
    (hex : f.extract = some t) :
    read_resume_or_desc req fieldName = t := by
  simp only [read_resume_or_desc, hf]
  rw [if_pos ⟨hname, hallow⟩]
  rcases hext with h | h
  · rw [h, if_pos rfl, hex]; rfl
  · rw [h, if_neg (by decide), if_pos rfl, hex]; rfl

/-- Witness for C4 (amended): a `.pdf` upload whose decoder succeeds wins
over simultaneously supplied inline text. -/
theorem resolver_fileExtract_overrides_inline_witness :
    read_resume_or_desc
      { files := [("resume_file", { filename := "cv.pdf", extract := some "FILETEXT" })],
        form := [("resume", "inline resume"), ("job_desc", "job")],
        json := none, contentType := "multipart/form-data" }
      "resume_file" = "FILETEXT" :=
  resolver_fileExtract_overrides_inline _ _ _ _ rfl (by decide) (by decide)
    (Or.inl (by decide)) rfl

/-- C5 (confirmed): for every request whose two resolved texts are
non-empty, the handler sends exactly one completion request, consisting of
exactly two messages (the fixed system prompt under the `system` role and
the built user prompt under the `user` role), the fixed model identifier
`gpt-4o-mini`, temperature `3/10`, and `max_tokens` 800 — and when the
provider succeeds with a first choice `c`, the analysis delivered to the
caller is `c` trimmed. -/
theorem analyze_callContract (req : Request) (provider : CompletionOutcome)
    (h1 : read_resume_or_desc req "resume_file" ≠ "")
    (h2 : read_resume_or_desc req "job_desc_file" ≠ "") :
    (analyze req provider).2 =
      [{ model := "gpt-4o-mini",
         messages :=
           [("system", system_prompt),
            ("user", (build_prompt (read_resume_or_desc req "resume_file")
                        (read_resume_or_desc req "job_desc_file")).2)],
         temperature := 3 / 10,
         maxTokens := 800 }] ∧
    (∀ c cs, provider = CompletionOutcome.success (c :: cs) →
      ((analyze req provider).1).analysisText = some (pyStrip c)) := by
  constructor
  · simp only [analyze]
    rw [if_neg (not_or.mpr ⟨h1, h2⟩)]
    split
    · rfl
    · rfl
    · split
      · rfl
      · rfl
  · intro c cs hp
    subst hp
    rcases hc : pyStartsWith req.contentType "application/json" with _ | _
    · simp only [analyze, if_neg (not_or.mpr ⟨h1, h2⟩), hc, Bool.false_eq_true, if_false]
      rfl
    · simp only [analyze, if_neg (not_or.mpr ⟨h1, h2⟩), hc, if_true]
      rfl

/-- Witness for C5: the call contract at a concrete JSON request with a
successful completion whose first choice carries surrounding whitespace. -/
theorem analyze_callContract_witness :
    (analyze { files := [], form := [],
               json := some [("resume", Json.str "abc"), ("job_desc", Json.str "def")],
               contentType := "application/json" }
        (CompletionOutcome.success [" hi "])).2 =
      [{ model := "gpt-4o-mini",
         messages := [("system", system_prompt), ("user", (build_prompt "abc" "def").2)],
         temperature := 3 / 10,
         maxTokens := 800 }] ∧
    ((analyze { files := [], form := [],
                json := some [("resume", Json.str "abc"), ("job_desc", Json.str "def")],
                contentType := "application/json" }
        (CompletionOutcome.success [" hi "])).1).analysisText = some "hi" := by
  have h := analyze_callContract
    { files := [], form := [],
      json := some [("resume", Json.str "abc"), ("job_desc", Json.str "def")],
      contentType := "application/json" }
    (CompletionOutcome.success [" hi "]) (by decide) (by decide)
  exact ⟨h.1, h.2 " hi " [] rfl⟩

/-- C6 (confirmed): the resolver is a total function (this embedding returns
a string on every input, mirroring the source's blanket `except Exception`
around the decoders), and when the chosen decoder fails on an attached,
allow-listed upload it fails closed to the empty string with no fallback to
inline text; for the resume field this then triggers the uniform HTTP 400
missing-input rejection with no provider call. -/
theorem resolver_extractionFailure_failsClosed (req : Request) (fieldName : String)
    (f : UploadedFile) (provider : CompletionOutcome)
    (hf : req.files.lookup fieldName = some f)
    (hname : f.filename ≠ "")
    (hallow : allowed_extension f.filename = true)
    (hext : pyLower (splitextExt f.filename) = ".pdf" ∨
            pyLower (splitextExt f.filename) = ".docx")
    (hex : f.extract = none) :
    read_resume_or_desc req fieldName = "" ∧
    (fieldName = "resume_file" →
      analyze req provider = (Response.json 400 [("error", missingInputMsg)], [])) := by
  have hres : read_resume_or_desc req fieldName = "" := by
    simp only [read_resume_or_desc, hf]
    rw [if_pos ⟨hname, hallow⟩]
    rcases hext with h | h
    · rw [h, if_pos rfl, hex]; rfl
    · rw [h, if_neg (by decide), if_pos rfl, hex]; rfl
  refine ⟨hres, fun hfield => ?_⟩
  subst hfield
  simp only [analyze]
  rw [if_pos (Or.inl hres)]

/-- Witness for C6: a corrupt `.pdf` resume upload, with inline text also
present, resolves to the empty string and the request is rejected with 400
and no provider call. -/
theorem resolver_extractionFailure_failsClosed_witness :
    read_resume_or_desc
      { files := [("resume_file", { filename := "cv.pdf", extract := none })],
        form := [("resume", "inline resume"), ("job_desc", "job")],
        json := none, contentType := "multipart/form-data" }
      "resume_file" = "" ∧
    ("resume_file" = "resume_file" →
      analyze
        { files := [("resume_file", { filename := "cv.pdf", extract := none })],
          form := [("resume", "inline resume"), ("job_desc", "job")],
          json := none, contentType := "multipart/form-data" }
        (CompletionOutcome.success ["ok"]) =
      (Response.json 400 [("error", missingInputMsg)], [])) :=
  resolver_extractionFailure_failsClosed _ _ _ _ rfl (by decide) (by decide)
    (Or.inl (by decide)) rfl

/-- Counterexample for C7: with a successful first choice `" padded "`, the
delivered analysis text is `"padded"`, not the unmodified `" padded "`: the
handler applies `.strip()` to the first choice before answering. -/
theorem analysis_not_unmodified :
    ((analyze c7Req (CompletionOutcome.success [" padded "])).1).analysisText =
      some "padded" ∧
    ((analyze c7Req (CompletionOutcome.success [" padded "])).1).analysisText ≠
      some " padded " := by
  refine ⟨by decide, by decide⟩

/-- C7 (amended): for every successful request, the analysis text delivered
in the result is the whitespace-trimmed text of the model's first response
choice. -/
theorem analysis_trimmedFirstChoice (req : Request) (c : String) (cs : List String)
    (h1 : read_resume_or_desc req "resume_file" ≠ "")
    (h2 : read_resume_or_desc req "job_desc_file" ≠ "") :
    ((analyze req (CompletionOutcome.success (c :: cs))).1).analysisText =
      some (pyStrip c) := by
  rcases hc : pyStartsWith req.contentType "application/json" with _ | _
  · simp only [analyze, if_neg (not_or.mpr ⟨h1, h2⟩), hc, Bool.false_eq_true, if_false]
    rfl
  · simp only [analyze, if_neg (not_or.mpr ⟨h1, h2⟩), hc, if_true]
    rfl

/-- Witness for C7 (amended): the trimmed first choice is delivered. -/
theorem analysis_trimmedFirstChoice_witness :
    ((analyze { files := [], form := [],
                json := some [("resume", Json.str "r"), ("job_desc", Json.str "j")],
                contentType := "application/json" }
        (CompletionOutcome.success [" padded ", "second"])).1).analysisText =
      some (pyStrip " padded ") :=
  analysis_trimmedFirstChoice
    { files := [], form := [],
      json := some [("resume", Json.str "r"), ("job_desc", Json.str "j")],
      contentType := "application/json" }
    " padded " ["second"] (by decide) (by decide)

/-- C8 (code bug): a JSON request carrying the documented fields `resume`
and `job_description`, both non-empty, is rejected with HTTP 400 and no
provider call even though the provider would succeed — the handler resolves
the job field by `"job_desc_file".replace("_file", "")`, i.e. under the JSON
key `job_desc`, contradicting the module docstring's own
`{"resume": ..., "job_description": ...}` example; the same request under
the key `job_desc` succeeds with HTTP 200. -/
theorem analyze_documentedJsonKey_rejected :
    analyze c8Req (CompletionOutcome.success ["ok"]) =
      (Response.json 400 [("error", missingInputMsg)], []) ∧
    (analyze c8ReqAlt (CompletionOutcome.success ["ok"])).1 =
      Response.json 200 [("analysis", "ok")] := by
  refine ⟨by decide, by decide⟩

/-- C9 (confirmed): on the success path, a request whose content type does
not start with `application/json` (e.g. the HTML form's multipart post)
receives the rendered HTML page carrying the analysis text as the
template's `result`, not the JSON object — and a request whose content
type does start with `application/json` receives exactly the JSON body
`{"analysis": ...}`. -/
theorem analyze_contentType_dispatch (req : Request) (c : String) (cs : List String)
    (h1 : read_resume_or_desc req "resume_file" ≠ "")
    (h2 : read_resume_or_desc req "job_desc_file" ≠ "") :
    (pyStartsWith req.contentType "application/json" = false →
      (analyze req (CompletionOutcome.success (c :: cs))).1 =
        Response.html 200 (pyStrip c)) ∧
    (pyStartsWith req.contentType "application/json" = true →
      (analyze req (CompletionOutcome.success (c :: cs))).1 =
        Response.json 200 [("analysis", pyStrip c)]) := by
  constructor
  · intro hc
    simp only [analyze, if_neg (not_or.mpr ⟨h1, h2⟩), hc, Bool.false_eq_true, if_false]
  · intro hc
    simp only [analyze, if_neg (not_or.mpr ⟨h1, h2⟩), hc, if_true]

/-- Witness for C9: a multipart form request gets the HTML page, a JSON
request gets the JSON body. -/
theorem analyze_contentType_dispatch_witness :
    (pyStartsWith "multipart/form-data; boundary=x" "application/json" = false →
      (analyze { files := [], form := [("resume", "r"), ("job_desc", "j")],
                 json := none, contentType := "multipart/form-data; boundary=x" }
          (CompletionOutcome.success ["ok"])).1 =
        Response.html 200 (pyStrip "ok")) ∧
    (pyStartsWith "multipart/form-data; boundary=x" "application/json" = true →
      (analyze { files := [], form := [("resume", "r"), ("job_desc", "j")],
                 json := none, contentType := "multipart/form-data; boundary=x" }
          (CompletionOutcome.success ["ok"])).1 =
        Response.json 200 [("analysis", pyStrip "ok")]) :=
  analyze_contentType_dispatch
    { files := [], form := [("resume", "r"), ("job_desc", "j")],
      json := none, contentType := "multipart/form-data; boundary=x" }
    "ok" [] (by decide) (by decide)

/-- C10 (confirmed): for a JSON request (no file part for the field, empty
form) and for every field name, when the JSON value under the key the
handler derives for that field (`field_name.replace("_file", "")`) is
absent or not a string, the resolver returns the empty string instead of
raising — the source guards with `isinstance(val, str)` — and for either
of the two logical fields the request is then rejected with the HTTP 400
missing-input error and no provider call. -/
theorem resolver_jsonNonString_empty_rejected (req : Request) (fieldName : String)
    (provider : CompletionOutcome)
    (hform : req.form = [])
    (hfile : req.files.lookup fieldName = none)
    (hv : ∀ s, (req.json.getD []).lookup (pyReplace fieldName "_file" "") ≠
               some (Json.str s)) :
    read_resume_or_desc req fieldName = "" ∧
    (fieldName = "resume_file" ∨ fieldName = "job_desc_file" →
      analyze req provider = (Response.json 400 [("error", missingInputMsg)], [])) := by
  have hres : read_resume_or_desc req fieldName = "" := by
    -- simp discharges the lone string arm of the JSON match from hv; every
    -- other arm of the match is literally the empty string
    simp only [read_resume_or_desc, hfile]
    rw [if_neg (by rw [hform]; exact fun h => h rfl)]
  refine ⟨hres, fun hfield => ?_⟩
  rcases hfield with hfield | hfield
  · subst hfield
    simp only [analyze]
    rw [if_pos (Or.inl hres)]
  · subst hfield
    simp only [analyze]
    rw [if_pos (Or.inr hres)]

/-- Witness for C10: a JSON body in which `resume` is a valid string but the
job value (under the key `job_desc` the handler reads) is `null`. -/
theorem resolver_jsonNonString_empty_rejected_witness :
    read_resume_or_desc
      { files := [], form := [],
        json := some [("resume", Json.str "r"), ("job_desc", Json.null)],
        contentType := "application/json" }
      "job_desc_file" = "" ∧
    ("job_desc_file" = "resume_file" ∨ "job_desc_file" = "job_desc_file" →
      analyze
        { files := [], form := [],
          json := some [("resume", Json.str "r"), ("job_desc", Json.null)],
          contentType := "application/json" }
        (CompletionOutcome.success ["ok"]) =
      (Response.json 400 [("error", missingInputMsg)], [])) :=
  resolver_jsonNonString_empty_rejected
    { files := [], form := [],
      json := some [("resume", Json.str "r"), ("job_desc", Json.null)],
      contentType := "application/json" }
    "job_desc_file" (CompletionOutcome.success ["ok"]) rfl rfl
    (fun s h => Json.noConfusion (Option.some.inj h))

end WWIR
